import Mathlib

set_option autoImplicit false
set_option maxHeartbeats 1000000

/-!
Shallow embedding of bot.py (repository Devil-Aura/control), a Telegram
channel-management bot.  Each handler of class TelegramChannelBot is modelled
as a pure function over an explicit database value and the per-user session
dictionary (context.user_data); the external Telegram transport is an oracle
parameter.  Python dictionaries are modelled as association lists, optional
dictionary keys as Option, and Python truthiness of strings as the predicate
truthy below.
-/

/-- Python truthiness of an optional string: None and the empty string are
falsy, every other string is truthy. -/
def truthy : Option String → Bool
  | none => false
  | some s => ! (s == "")

/-- Python dictionary read, on an association list: first binding wins. -/
def dictGet {α β : Type} [DecidableEq α] (k : α) : List (α × β) → Option β
  | [] => none
  | p :: rest => if p.1 = k then some p.2 else dictGet k rest

/-- Python dictionary assignment on an association list: replace the binding
in place if the key is present (Python dicts keep the key's position), else
append a new binding at the end (insertion order). -/
def dictPut {α β : Type} [DecidableEq α] (k : α) (v : β) : List (α × β) → List (α × β)
  | [] => [(k, v)]
  | p :: rest => if p.1 = k then (k, v) :: rest else p :: dictPut k v rest

/-- One stored content block: the message_data dictionary built by
handle_text_message (bot.py lines 401-421).  Keys that are set only for media
messages are Options defaulting to none. -/
structure MessageData where
  text : Option String
  parse_mode : String
  entities : List Nat
  message_id : Nat
  date : Nat
  photo : Option String := none
  video : Option String := none
  document : Option String := none
  caption : Option String := none
  caption_entities : Option (List Nat) := none
deriving DecidableEq

/-- A channel record as written by handle_forwarded_message
(bot.py lines 342-352). -/
structure Channel where
  id : Int
  name : String
  username : Option String
  ctype : String
  admins : List Int
  owner_id : Int
  added_date : Nat
  bot_token : Option String
  timezone : String
deriving DecidableEq

/-- A post record as written by send_post_to_channel (bot.py lines 626-634). -/
structure PostData where
  id : String
  channel_id : Int
  user_id : Int
  messages : List MessageData
  sent_messages : List Nat
  sent_date : Nat
  ptype : String
deriving DecidableEq

/-- A user record as written by start and by the language callback.  Python
builds these as schemaless dicts, so every key except language is optional;
language defaults to "en" exactly as user_data.get with default "en" does. -/
structure UserRec where
  uid : Option Int := none
  username : Option String := none
  first_name : Option String := none
  language : String := "en"
deriving DecidableEq

/-- The in-memory Database object of bot.py (lines 58-80), with each dict
modelled as an association list.  The bots and subscriptions tables are never
read or written by any handler and are kept for shape. -/
structure Database where
  users : List (Int × UserRec) := []
  channels : List (Int × Channel) := []
  posts : List (String × PostData) := []
  scheduled_posts : List (String × Nat) := []
  bots : List (Int × String) := []
  subscriptions : List (Int × String) := []
deriving DecidableEq

def Database.get_user (db : Database) (userId : Int) : Option UserRec :=
  dictGet userId db.users

def Database.save_user (db : Database) (userId : Int) (r : UserRec) : Database :=
  { db with users := dictPut userId r db.users }

def Database.get_channel (db : Database) (channelId : Int) : Option Channel :=
  dictGet channelId db.channels

def Database.save_channel (db : Database) (channelId : Int) (c : Channel) : Database :=
  { db with channels := dictPut channelId c db.channels }

def Database.get_user_channels (db : Database) (userId : Int) : List Channel :=
  (db.channels.filter (fun p => p.2.admins.contains userId)).map (fun p => p.2)

/-- The per-user session dictionary context.user_data.  Flags that Python
reads with get (absent means falsy) are Bools defaulting to false; the
post_messages key is an Option because the code distinguishes an absent key
(line 397) from an empty list. -/
structure UserData where
  adding_channel : Bool := false
  creating_post : Bool := false
  scheduling_post : Bool := false
  selected_channel : Option Int := none
  post_messages : Option (List MessageData) := none
  replying_to : Option (Int × Nat × Int) := none
deriving DecidableEq

/-- An incoming Telegram message, with the fields the handlers read.
photo is a list of photo sizes (Python truthiness: nonempty); video and
document are optional file ids. -/
structure IncomingMessage where
  text : Option String := none
  text_html : Option String := none
  text_markdown : Option String := none
  entities : List Nat := []
  message_id : Nat := 0
  photo : List String := []
  video : Option String := none
  document : Option String := none
  caption : Option String := none
  caption_html : Option String := none
  caption_entities : Option (List Nat) := none
  is_forwarded : Bool := false
  is_command : Bool := false
deriving DecidableEq

/-- A Telegram user as read by start. -/
structure TgUser where
  id : Int
  username : Option String := none
  first_name : String := ""
deriving DecidableEq

/-- The forward_from_chat of a forwarded message. -/
structure FwdChat where
  id : Int
  title : String
  username : Option String := none
  ctype : String
deriving DecidableEq

/-- Build the message_data dictionary for one incoming message, exactly as
handle_text_message does (bot.py lines 401-421): text and parse_mode from
text_html when truthy else text_markdown, then one media branch
(photo / video / document) adding the file id, caption and caption_entities. -/
def buildMessageData (m : IncomingMessage) (now : Nat) : MessageData :=
  let base : MessageData :=
    { text := if truthy m.text_html then m.text_html else m.text_markdown
      parse_mode := if truthy m.text_html then "HTML" else "Markdown"
      entities := m.entities
      message_id := m.message_id
      date := now }
  let cap := if truthy m.caption_html then m.caption_html else m.caption
  if m.photo ≠ [] then
    { base with photo := m.photo.getLast?, caption := cap,
                caption_entities := m.caption_entities }
  else if m.video.isSome then
    { base with video := m.video, caption := cap,
                caption_entities := m.caption_entities }
  else if m.document.isSome then
    { base with document := m.document, caption := cap,
                caption_entities := m.caption_entities }
  else base

/-- Truncation used by the preview (bot.py line 537): first 100 characters
plus an ellipsis when the text is longer than 100 characters. -/
def previewTrunc (t : String) : String :=
  if t.length > 100 then t.take 100 ++ "..." else t

/-- One numbered preview line (bot.py lines 535-544); none when the block
matches no branch of the if/elif chain (no line is emitted for it). -/
def renderLine (i : Nat) (m : MessageData) : Option String :=
  if truthy m.text then some (toString i ++ ". 📝 " ++ previewTrunc (m.text.getD ""))
  else if truthy m.photo then some (toString i ++ ". 📷 Photo with caption")
  else if truthy m.video then some (toString i ++ ". 🎥 Video with caption")
  else if truthy m.document then some (toString i ++ ". 📄 Document with caption")
  else none

/-- Pair each element with its 1-based position, as Python enumerate with
start 1 does in the preview loop. -/
def withIdx {α : Type} : Nat → List α → List (Nat × α)
  | _, [] => []
  | i, m :: rest => (i, m) :: withIdx (i + 1) rest

/-- The rendered preview message. -/
inductive PreviewOut
  | noContent
  | preview (channelName : Option String) (count : Nat) (lines : List String)
      (more : Option Nat)
deriving DecidableEq

/-- show_post_preview (bot.py lines 519-563).  Reads post_messages with
default empty list; with no content it shows the no-content prompt, else a
summary with the block count, one line per rendered block among the first
three, and a more-messages count when over three.  The function performs no
assignment to context.user_data, so the session is returned unchanged. -/
def show_post_preview (db : Database) (s : UserData) : UserData × PreviewOut :=
  let pm := s.post_messages.getD []
  if pm.isEmpty then (s, PreviewOut.noContent)
  else
    let channel := match s.selected_channel with
      | none => none
      | some cid => db.get_channel cid
    (s, PreviewOut.preview (channel.map (fun c => c.name)) pm.length
      ((withIdx 1 (pm.take 3)).filterMap (fun p => renderLine p.1 p.2))
      (if pm.length > 3 then some (pm.length - 3) else none))

/-- Outcome of handle_text_message visible to the user. -/
inductive TextOut
  | ignored
  | channelNotFound
  | previewed (p : PreviewOut)
deriving DecidableEq

/-- handle_text_message (bot.py lines 382-426).  Only acts when the
creating_post flag is truthy; resolves the selected channel (get of a missing
selected_channel gives None, and get_channel of that gives None) and replies
"Channel not found." without touching the session when absent; otherwise
appends exactly one message_data block to post_messages (initialising the key
to an empty list when absent) and shows the preview of the updated session. -/
def handle_text_message (db : Database) (s : UserData) (m : IncomingMessage)
    (now : Nat) : UserData × TextOut :=
  if s.creating_post then
    let channel := match s.selected_channel with
      | none => none
      | some cid => db.get_channel cid
    match channel with
    | none => (s, TextOut.channelNotFound)
    | some _ =>
      let base := s.post_messages.getD []
      let s' := { s with post_messages := some (base ++ [buildMessageData m now]) }
      (s', TextOut.previewed (show_post_preview db s').2)
  else (s, TextOut.ignored)

/-- Result of one transport call: a sent message id, or a raised
TelegramError. -/
inductive TrResult
  | ok (messageId : Nat)
  | err
deriving DecidableEq

/-- Result of the whole send loop: the collected message ids, or a raised
TelegramError that aborts the try block. -/
inductive LoopRes
  | ok (ids : List Nat)
  | err
deriving DecidableEq

/-- One outbound transport call made by the send loop of
send_post_to_channel, with the arguments the code passes. -/
inductive SendCall
  | photoCall (chat : Int) (fileId : String) (caption : Option String)
      (captionEntities : Option (List Nat))
  | videoCall (chat : Int) (fileId : String) (caption : Option String)
      (captionEntities : Option (List Nat))
  | messageCall (chat : Int) (text : String) (entities : List Nat)
deriving DecidableEq

/-- The transport call the loop body makes for one block (bot.py lines
596-620): send_photo when the photo key is truthy, elif send_video, elif
send_message when text is truthy, else none (the bare continue: the block is
dropped, no send_document branch exists). -/
def blockCall (chat : Int) (m : MessageData) : Option SendCall :=
  if truthy m.photo then
    some (SendCall.photoCall chat (m.photo.getD "") m.caption m.caption_entities)
  else if truthy m.video then
    some (SendCall.videoCall chat (m.video.getD "") m.caption m.caption_entities)
  else if truthy m.text then
    some (SendCall.messageCall chat (m.text.getD "") m.entities)
  else none

/-- The for loop of send_post_to_channel (bot.py lines 595-622) run against a
transport oracle tr mapping the index of each call made in this invocation to
its result.  Returns the trace of calls attempted and either every sent
message id in order, or err when a call raised (aborting the loop). -/
def sendLoop (tr : Nat → TrResult) (chat : Int) :
    List MessageData → Nat → List SendCall × LoopRes
  | [], _ => ([], LoopRes.ok [])
  | m :: rest, k =>
    match blockCall chat m with
    | none => sendLoop tr chat rest k
    | some c =>
      match tr k with
      | TrResult.err => ([c], LoopRes.err)
      | TrResult.ok mid =>
        match sendLoop tr chat rest (k + 1) with
        | (cs, LoopRes.ok ids) => (c :: cs, LoopRes.ok (mid :: ids))
        | (cs, LoopRes.err) => (c :: cs, LoopRes.err)

/-- The alert or message send_post_to_channel leaves the user with.
channelNotFound is the "Channel not found." alert, noContent the "No content
to send." alert, noBot the "No bot connected to this channel. Please add a
bot first." alert, sendError the "Error sending post" alert from the except
branch, and sent the success message whose Messages line shows the number of
sent message ids. -/
inductive SendNotice
  | channelNotFound
  | noContent
  | noBot
  | sendError
  | sent (n : Nat)
deriving DecidableEq

/-- Everything observable after one send_post_to_channel invocation. -/
structure SendOutcome where
  db : Database
  session : UserData
  notice : SendNotice
  calls : List SendCall
deriving DecidableEq

/-- The post id string built at bot.py line 625 from the channel id and the
current timestamp. -/
def postIdStr (cid : Int) (now : Nat) : String :=
  toString cid ++ "_" ++ toString now

/-- send_post_to_channel (bot.py lines 565-674).  Resolves the selected
channel (alerting when missing), requires nonempty post_messages, requires a
truthy bot_token (alerting noBot otherwise, with no transport call), then
runs the send loop; a raised TelegramError is caught by the except branch,
which only alerts — the database and session are left untouched.  Only on
full success is a single post record written to db.posts, the success message
shown, and the post_messages / selected_channel / creating_post keys popped
from the session. -/
def send_post_to_channel (tr : Nat → TrResult) (db : Database) (s : UserData)
    (userId : Int) (now : Nat) : SendOutcome :=
  let channel := match s.selected_channel with
    | none => none
    | some cid => db.get_channel cid
  match channel with
  | none => ⟨db, s, SendNotice.channelNotFound, []⟩
  | some ch =>
    let pm := s.post_messages.getD []
    if pm.isEmpty then ⟨db, s, SendNotice.noContent, []⟩
    else if ! truthy ch.bot_token then ⟨db, s, SendNotice.noBot, []⟩
    else
      let cid := s.selected_channel.getD ch.id
      match sendLoop tr cid pm 0 with
      | (calls, LoopRes.err) => ⟨db, s, SendNotice.sendError, calls⟩
      | (calls, LoopRes.ok ids) =>
        let pid := postIdStr cid now
        let pd : PostData :=
          { id := pid, channel_id := cid, user_id := userId, messages := pm,
            sent_messages := ids, sent_date := now, ptype := "instant" }
        let db' := { db with posts := dictPut pid pd db.posts }
        let s' := { s with post_messages := none, selected_channel := none,
                           creating_post := false }
        ⟨db', s', SendNotice.sent ids.length, calls⟩

/-- Result of the get_chat_member verification: the member status string, or
a raised TelegramError. -/
inductive VerifyRes
  | status (st : String)
  | failed
deriving DecidableEq

/-- The reply handle_forwarded_message leaves the user with. -/
inductive FwdNotice
  | ignored
  | notAdmin
  | verifyFailed
  | added
deriving DecidableEq

/-- handle_forwarded_message (bot.py lines 312-380).  Returns immediately
when the adding_channel flag is not truthy.  When the forwarded chat is a
channel or group, verifies the sender's member status through the transport
(a raised TelegramError replies verifyFailed; a status outside creator /
administrator replies notAdmin, both without any write).  On success it
builds a fresh channel record — admins equal to the singleton claimant,
owner_id the claimant, bot_token None — saves it under the chat id
(overwriting any existing record), replies success and pops the
adding_channel flag. -/
def handle_forwarded_message (verify : Int → Int → VerifyRes) (db : Database)
    (s : UserData) (userId : Int) (fwd : Option FwdChat) (now : Nat) :
    Database × UserData × FwdNotice :=
  if ! s.adding_channel then (db, s, FwdNotice.ignored)
  else
    match fwd with
    | none => (db, s, FwdNotice.ignored)
    | some chat =>
      if chat.ctype = "channel" ∨ chat.ctype = "group" then
        match verify chat.id userId with
        | VerifyRes.failed => (db, s, FwdNotice.verifyFailed)
        | VerifyRes.status st =>
          if st = "creator" ∨ st = "administrator" then
            let cd : Channel :=
              { id := chat.id, name := chat.title, username := chat.username,
                ctype := chat.ctype, admins := [userId], owner_id := userId,
                added_date := now, bot_token := none, timezone := "UTC" }
            (db.save_channel chat.id cd,
             { s with adding_channel := false }, FwdNotice.added)
          else (db, s, FwdNotice.notAdmin)
      else (db, s, FwdNotice.ignored)

/-- schedule_post (bot.py lines 676-704).  The body only edits the prompt
message asking for a time (with quick-pick buttons) and sets the
scheduling_post flag; it parses nothing, validates nothing, and creates no
schedule entry and no post — no handler ever reads the flag it sets. -/
def schedule_post (s : UserData) : UserData :=
  { s with scheduling_post := true }

/-- add_channel (bot.py lines 235-245).  The body only replies with the
adding-a-channel instructions; it writes no session key (in particular it
does not set adding_channel) and returns the TYPING_CHANNEL state. -/
def add_channel (s : UserData) : UserData :=
  s

/-- start (bot.py lines 146-165).  Writes the user record (preserving a
previously stored language, defaulting to "en") and replies the welcome
message; context.user_data is untouched. -/
def start (db : Database) (u : TgUser) : Database :=
  let old := (db.get_user u.id).getD {}
  db.save_user u.id
    { old with uid := some u.id, username := u.username,
               first_name := some u.first_name, language := old.language }

/-- ReplyManager.handle_reply (bot.py lines 750-771): stores the reply
context under the replying_to key. -/
def handleReply (s : UserData) (channelId : Int) (messageId : Nat)
    (userId : Int) : UserData :=
  { s with replying_to := some (channelId, messageId, userId) }

/-- The parsed callback_data strings handle_callback dispatches on
(bot.py lines 436-469): the select_channel_ and lang_ prefixes carry their
suffix as payload; every unrecognised string falls through the if/elif chain
with no effect. -/
inductive CallbackData
  | backToMain
  | selectChannel (cid : Int)
  | postPreview
  | sendPost
  | schedulePost
  | lang (code : String)
  | other (raw : String)
deriving DecidableEq

/-- handle_callback (bot.py lines 428-480).  back_to_main and post_preview
only display text; select_channel_ sets selected_channel and creating_post
(before checking that the channel exists, so the flags are set even for an
unknown id); send_post delegates to send_post_to_channel; schedule_post
delegates to schedule_post; lang_ rewrites the user record's language. -/
def handle_callback (tr : Nat → TrResult) (db : Database) (s : UserData)
    (userId : Int) (d : CallbackData) (now : Nat) : Database × UserData :=
  match d with
  | CallbackData.backToMain => (db, s)
  | CallbackData.selectChannel cid =>
    (db, { s with selected_channel := some cid, creating_post := true })
  | CallbackData.postPreview => (db, (show_post_preview db s).1)
  | CallbackData.sendPost =>
    let r := send_post_to_channel tr db s userId now
    (r.db, r.session)
  | CallbackData.schedulePost => (db, schedule_post s)
  | CallbackData.lang code =>
    let old := (db.get_user userId).getD {}
    (db.save_user userId { old with language := code }, s)
  | CallbackData.other _ => (db, s)

/-- Which message handler the dispatcher routes an incoming message to
(setup_handlers, bot.py lines 117-144): command handlers first, then the
Filters.forwarded handler, then the Filters.text and-not Filters.command
handler.  Filters.text matches only a truthy message.text — captions do not
count — so a photo / video / document message matches neither message
handler. -/
inductive Routed
  | commandH
  | forwardedH
  | textH
  | noHandler
deriving DecidableEq

/-- Dispatch order of setup_handlers for message updates. -/
def dispatch (m : IncomingMessage) : Routed :=
  if m.is_command then Routed.commandH
  else if m.is_forwarded then Routed.forwardedH
  else if truthy m.text then Routed.textH
  else Routed.noHandler

/-- Repeated invocation of handle_text_message: the session after a user in
composing state sends each listed message (with its arrival timestamp) in
order. -/
def composeAll (db : Database) (s : UserData) :
    List (IncomingMessage × Nat) → UserData
  | [] => s
  | (m, t) :: rest => composeAll db (handle_text_message db s m t).1 rest

/-- A transport where every call succeeds, returning ids 100, 101, ... -/
def trAllOk : Nat → TrResult := fun k => TrResult.ok (100 + k)

/-- A transport where the first call succeeds with id 100 and every later
call raises. -/
def trFailSecond : Nat → TrResult := fun k =>
  if k = 0 then TrResult.ok 100 else TrResult.err

/-- A transport where every call succeeds, returning ids 200, 201, ... -/
def trRetryOk : Nat → TrResult := fun k => TrResult.ok (200 + k)

/-- An incoming plain text message. -/
def textMsg (t : String) : IncomingMessage :=
  { text := some t, text_html := some t }

def blockA : MessageData := buildMessageData (textMsg "A") 1

def blockB : MessageData := buildMessageData (textMsg "B") 2

def blockHello : MessageData := buildMessageData (textMsg "Hello") 10

/-- An incoming photo message with an HTML caption. -/
def photoIn : IncomingMessage := { photo := ["P1"], caption_html := some "capP" }

def blockPhoto : MessageData := buildMessageData photoIn 11

def videoIn : IncomingMessage := { video := some "V1" }

def blockVideo : MessageData := buildMessageData videoIn 12

/-- An incoming document message with a plain caption. -/
def docIn : IncomingMessage := { document := some "D1", caption := some "capD" }

def blockDoc : MessageData := buildMessageData docIn 13

/-- Channel 500 with a bound bot token. -/
def chanTok : Channel :=
  { id := 500, name := "Chan", username := none, ctype := "channel",
    admins := [7], owner_id := 7, added_date := 1, bot_token := some "tok",
    timezone := "UTC" }

def dbTok : Database := { channels := [(500, chanTok)] }

/-- A composing session for channel 500 holding the given blocks. -/
def sessionWith (blocks : List MessageData) : UserData :=
  { creating_post := true, selected_channel := some 500,
    post_messages := some blocks }

def sAB : UserData := sessionWith [blockA, blockB]

def sFour : UserData := sessionWith [blockHello, blockPhoto, blockVideo, blockDoc]

def sOne : UserData := sessionWith [blockA]

/-- A composing session for channel 500 with no block appended yet. -/
def sFresh : UserData := { creating_post := true, selected_channel := some 500 }

/-- Channel 600 with no bound bot token. -/
def chanNoTok : Channel :=
  { id := 600, name := "NoTok", username := none, ctype := "channel",
    admins := [7], owner_id := 7, added_date := 1, bot_token := none,
    timezone := "UTC" }

def dbNoTok : Database := { channels := [(600, chanNoTok)] }

def sNoTok : UserData :=
  { creating_post := true, selected_channel := some 600,
    post_messages := some [blockA] }

/-- Channel 5 first claimed by user 1, who also bound a bot token. -/
def chanOwned : Channel :=
  { id := 5, name := "C", username := none, ctype := "channel",
    admins := [1], owner_id := 1, added_date := 1, bot_token := some "tok",
    timezone := "UTC" }

def dbOwned : Database := { channels := [(5, chanOwned)] }

/-- A session with the adding_channel flag set (hypothetically, since no code
path sets it). -/
def sAdding : UserData := { adding_channel := true }

def fwd5 : FwdChat := { id := 5, title := "C", username := none, ctype := "channel" }

/-- A verification oracle under which every claimant is an administrator. -/
def verifyAdmin : Int → Int → VerifyRes := fun _ _ => VerifyRes.status "administrator"

/-- An incoming photo message carrying no text, not forwarded, no command. -/
def photoOnlyMsg : IncomingMessage := { photo := ["P9"], caption := some "Cap" }

/-- Four text messages with arrival timestamps, for exercising the preview
remainder count. -/
def msgs4 : List (IncomingMessage × Nat) :=
  [(textMsg "m1", 1), (textMsg "m2", 2), (textMsg "m3", 3), (textMsg "m4", 4)]

theorem dictGet_dictPut_self {α β : Type} [DecidableEq α] (k : α) (v : β)
    (l : List (α × β)) : dictGet k (dictPut k v l) = some v := by
  induction l with
  | nil => simp [dictGet, dictPut]
  | cons p rest ih =>
    by_cases h : p.1 = k
    · simp [dictPut, h, dictGet]
    · simp [dictPut, h, dictGet, ih]

/-- When send_post_to_channel ends in the except branch (sendError), the
database and the session are returned untouched. -/
theorem sendError_frame (tr : Nat → TrResult) (db : Database) (s : UserData)
    (userId : Int) (now : Nat)
    (h : (send_post_to_channel tr db s userId now).notice = SendNotice.sendError) :
    (send_post_to_channel tr db s userId now).db = db ∧
    (send_post_to_channel tr db s userId now).session = s := by
  cases hsel : s.selected_channel with
  | none => simp [send_post_to_channel, hsel] at h
  | some cid =>
    cases hch : db.get_channel cid with
    | none => simp [send_post_to_channel, hsel, hch] at h
    | some ch =>
      by_cases hpm : (s.post_messages.getD []).isEmpty = true
      · simp [send_post_to_channel, hsel, hch, hpm] at h
      · by_cases htok : truthy ch.bot_token = true
        · cases hloop : sendLoop tr cid (s.post_messages.getD []) 0 with
          | mk calls res =>
            cases res with
            | ok ids =>
              simp [send_post_to_channel, hsel, hch, hpm, htok, hloop] at h
            | err =>
              constructor <;>
                simp [send_post_to_channel, hsel, hch, hpm, htok, hloop]
        · simp [send_post_to_channel, hsel, hch, hpm, htok] at h

/-- Frame facts about send_post_to_channel: the session's adding_channel flag
is never written, and the database's scheduled_posts and channels tables are
never written. -/
theorem send_post_frame (tr : Nat → TrResult) (db : Database) (s : UserData)
    (userId : Int) (now : Nat) :
    (send_post_to_channel tr db s userId now).session.adding_channel = s.adding_channel ∧
    (send_post_to_channel tr db s userId now).db.scheduled_posts = db.scheduled_posts ∧
    (send_post_to_channel tr db s userId now).db.channels = db.channels := by
  cases hsel : s.selected_channel with
  | none => simp [send_post_to_channel, hsel]
  | some cid =>
    cases hch : db.get_channel cid with
    | none => simp [send_post_to_channel, hsel, hch]
    | some ch =>
      by_cases hpm : (s.post_messages.getD []).isEmpty = true
      · simp [send_post_to_channel, hsel, hch, hpm]
      · by_cases htok : truthy ch.bot_token = true
        · cases hloop : sendLoop tr cid (s.post_messages.getD []) 0 with
          | mk calls res =>
            cases res with
            | ok ids =>
              simp [send_post_to_channel, hsel, hch, hpm, htok, hloop]
            | err =>
              simp [send_post_to_channel, hsel, hch, hpm, htok, hloop]
        · simp [send_post_to_channel, hsel, hch, hpm, htok]

/-- handle_text_message writes no session key except post_messages. -/
theorem handle_text_message_frame (db : Database) (s : UserData)
    (m : IncomingMessage) (now : Nat) :
    (handle_text_message db s m now).1.adding_channel = s.adding_channel ∧
    (handle_text_message db s m now).1.creating_post = s.creating_post ∧
    (handle_text_message db s m now).1.selected_channel = s.selected_channel ∧
    (handle_text_message db s m now).1.scheduling_post = s.scheduling_post := by
  by_cases hc : s.creating_post = true
  · cases hsel : s.selected_channel with
    | none => simp [handle_text_message, hc, hsel]
    | some cid =>
      cases hch : db.get_channel cid with
      | none => simp [handle_text_message, hc, hsel, hch]
      | some ch => simp [handle_text_message, hc, hsel, hch]
  · simp [handle_text_message, hc]

/-- The session after composing a list of messages from a valid composing
session: every other field is unchanged and post_messages has gained one
block per message, in arrival order. -/
theorem composeAll_spec (db : Database) (cid : Int) (ch : Channel)
    (msgs : List (IncomingMessage × Nat)) :
    ∀ s : UserData, s.creating_post = true → s.selected_channel = some cid →
      db.get_channel cid = some ch →
      composeAll db s msgs =
        (if msgs.isEmpty then s
         else { s with
                post_messages := some (s.post_messages.getD [] ++
                  msgs.map (fun p => buildMessageData p.1 p.2)) }) := by
  induction msgs with
  | nil => intro s _ _ _; simp [composeAll]
  | cons mt rest ih =>
    intro s hc hsel hch
    obtain ⟨m, t⟩ := mt
    have hstep : (handle_text_message db s m t).1 =
        { s with
          post_messages := some (s.post_messages.getD [] ++
            [buildMessageData m t]) } := by
      simp [handle_text_message, hc, hsel, hch]
    have hrest := ih { s with
        post_messages := some (s.post_messages.getD [] ++
          [buildMessageData m t]) }
      (by simp [hc]) (by simp [hsel]) hch
    by_cases hre : rest.isEmpty = true
    · simp [composeAll, hstep, hrest, hre]
      cases rest with
      | nil => simp
      | cons a b => simp at hre
    · simp [composeAll, hstep, hrest, hre, List.append_assoc]

/-- C1: for a post whose blocks are text, photo, video and document, the
send loop of send_post_to_channel makes only three transport calls — text,
photo and video, in arrival order — and reports three sent messages: the
document block matches no branch of the if/elif chain (there is no
send_document call) and is silently dropped by the bare continue, although
the bot's own creation prompt offers documents and the preview renders
document blocks.  This contradicts the claim that every block is sent with
its native content type and never skipped. -/
theorem C1_document_block_dropped :
    (send_post_to_channel trAllOk dbTok sFour 7 999).calls =
      [SendCall.messageCall 500 "Hello" [],
       SendCall.photoCall 500 "P1" (some "capP") none,
       SendCall.videoCall 500 "V1" none none] ∧
    (send_post_to_channel trAllOk dbTok sFour 7 999).notice = SendNotice.sent 3 := by
  constructor <;> rfl

/-- C2 counterexample: with two text blocks A and B and a transport whose
first call succeeds (id 100) and whose second raises, the first invocation of
send_post_to_channel delivers block A and fails on block B; the second
invocation, on the database and session the first one left behind, makes the
very same calls — block A, already delivered, is sent again.  The code has no
partially-sent state, records nothing about the first delivery, and always
restarts from the first block. -/
theorem C2_counterexample :
    trFailSecond 0 = TrResult.ok 100 ∧
    (send_post_to_channel trFailSecond dbTok sAB 7 1000).calls =
      [SendCall.messageCall 500 "A" [], SendCall.messageCall 500 "B" []] ∧
    (send_post_to_channel trFailSecond dbTok sAB 7 1000).notice =
      SendNotice.sendError ∧
    (send_post_to_channel trRetryOk
        (send_post_to_channel trFailSecond dbTok sAB 7 1000).db
        (send_post_to_channel trFailSecond dbTok sAB 7 1000).session
        7 2000).calls =
      [SendCall.messageCall 500 "A" [], SendCall.messageCall 500 "B" []] := by
  refine ⟨rfl, rfl, rfl, rfl⟩

/-- C2 (amended): the code keeps no partial-delivery record at all, so there
is nothing to resume.  An invocation of send_post_to_channel that ends in the
except branch leaves the database and the session exactly as they were, and a
subsequent invocation therefore behaves exactly as a first attempt would:
every block is sent again from the first, including any block the failed
invocation had already delivered. -/
theorem C2_no_resume (tr tr' : Nat → TrResult) (db : Database) (s : UserData)
    (userId userId' : Int) (t t' : Nat)
    (h : (send_post_to_channel tr db s userId t).notice = SendNotice.sendError) :
    (send_post_to_channel tr db s userId t).db = db ∧
    (send_post_to_channel tr db s userId t).session = s ∧
    send_post_to_channel tr' (send_post_to_channel tr db s userId t).db
        (send_post_to_channel tr db s userId t).session userId' t' =
      send_post_to_channel tr' db s userId' t' := by
  obtain ⟨h1, h2⟩ := sendError_frame tr db s userId t h
  exact ⟨h1, h2, by rw [h1, h2]⟩

/-- C2 witness: the amended theorem applies to the concrete failing run of
the counterexample. -/
theorem C2_no_resume_witness :
    (send_post_to_channel trFailSecond dbTok sAB 7 1000).notice =
      SendNotice.sendError ∧
    ((send_post_to_channel trFailSecond dbTok sAB 7 1000).db = dbTok ∧
     (send_post_to_channel trFailSecond dbTok sAB 7 1000).session = sAB ∧
     send_post_to_channel trRetryOk
         (send_post_to_channel trFailSecond dbTok sAB 7 1000).db
         (send_post_to_channel trFailSecond dbTok sAB 7 1000).session 7 2000 =
       send_post_to_channel trRetryOk dbTok sAB 7 2000) :=
  ⟨rfl, C2_no_resume trFailSecond trRetryOk dbTok sAB 7 7 1000 2000 rfl⟩

/-- C3 counterexample: in the run where block A's send succeeded (the
transport returned id 100 for call 0) and block B's send then raised, the
posts table is still empty afterwards: the id of the delivered first block
was never persisted before the next block's send was attempted, because
sent_messages is a local list and db.posts is only written after the whole
loop. -/
theorem C3_counterexample :
    trFailSecond 0 = TrResult.ok 100 ∧
    (send_post_to_channel trFailSecond dbTok sAB 7 1000).calls.length = 2 ∧
    (send_post_to_channel trFailSecond dbTok sAB 7 1000).db.posts = [] := by
  refine ⟨rfl, rfl, rfl⟩

/-- C3 (amended): delivered message ids are accumulated only in the local
sent_messages list; the store is written exactly once, after the loop has
completed successfully — the single new post record then carries the full id
list.  No intermediate per-block persistence exists, so any invocation either
leaves the database untouched or ends with the one success-time write. -/
theorem C3_store_written_only_on_success (tr : Nat → TrResult) (db : Database)
    (s : UserData) (userId : Int) (now : Nat) :
    (send_post_to_channel tr db s userId now).db = db ∨
    ∃ pd : PostData,
      (send_post_to_channel tr db s userId now).notice =
        SendNotice.sent pd.sent_messages.length ∧
      (send_post_to_channel tr db s userId now).db =
        { db with posts := dictPut pd.id pd db.posts } := by
  cases hsel : s.selected_channel with
  | none => left; simp [send_post_to_channel, hsel]
  | some cid =>
    cases hch : db.get_channel cid with
    | none => left; simp [send_post_to_channel, hsel, hch]
    | some ch =>
      by_cases hpm : (s.post_messages.getD []).isEmpty = true
      · left; simp [send_post_to_channel, hsel, hch, hpm]
      · by_cases htok : truthy ch.bot_token = true
        · cases hloop : sendLoop tr cid (s.post_messages.getD []) 0 with
          | mk calls res =>
            cases res with
            | ok ids =>
              right
              refine ⟨{ id := postIdStr cid now, channel_id := cid,
                        user_id := userId, messages := s.post_messages.getD [],
                        sent_messages := ids, sent_date := now,
                        ptype := "instant" }, ?_, ?_⟩ <;>
                simp [send_post_to_channel, hsel, hch, hpm, htok, hloop]
            | err =>
              left; simp [send_post_to_channel, hsel, hch, hpm, htok, hloop]
        · left; simp [send_post_to_channel, hsel, hch, hpm, htok]

/-- Frame fact: handle_forwarded_message never writes the scheduled_posts or
posts tables (its only database write is save_channel). -/
theorem handle_forwarded_db_frame (verify : Int → Int → VerifyRes)
    (db : Database) (s : UserData) (userId : Int) (fwd : Option FwdChat)
    (now : Nat) :
    (handle_forwarded_message verify db s userId fwd now).1.scheduled_posts =
      db.scheduled_posts ∧
    (handle_forwarded_message verify db s userId fwd now).1.posts = db.posts := by
  refine ⟨?_, ?_⟩ <;>
  · unfold handle_forwarded_message
    repeat' split
    all_goals simp [Database.save_channel]

/-- C4 counterexample: a schedule request on a composing session holding one
block only flips the scheduling_post flag — no timestamp is parsed, no
ValidationError is possible, no ScheduleEntry and no scheduled Post are
created — and the time the user then types in ("14:30", a time in the past
of any later now) is swallowed by handle_text_message as one more content
block of the draft, because the creating_post flag is still set and nothing
reads scheduling_post. -/
theorem C4_counterexample :
    schedule_post sOne = { sOne with scheduling_post := true } ∧
    (handle_text_message dbTok (schedule_post sOne) (textMsg "14:30")
        111).1.post_messages =
      some [blockA, buildMessageData (textMsg "14:30") 111] := by
  refine ⟨rfl, rfl⟩

/-- C4 (amended): schedule_post only displays the time-format prompt and sets
the scheduling_post flag, which no handler reads; no operation of the program
ever writes the scheduled_posts table, so neither a past nor a future
requested time can yield a ValidationError or a pending ScheduleEntry — the
scheduling path materialises nothing. -/
theorem C4_no_scheduling_machinery (verify : Int → Int → VerifyRes)
    (tr : Nat → TrResult) (db : Database) (s : UserData) (userId : Int)
    (d : CallbackData) (u : TgUser) (fwd : Option FwdChat) (now : Nat) :
    schedule_post s = { s with scheduling_post := true } ∧
    (send_post_to_channel tr db s userId now).db.scheduled_posts =
      db.scheduled_posts ∧
    (handle_callback tr db s userId d now).1.scheduled_posts =
      db.scheduled_posts ∧
    (handle_forwarded_message verify db s userId fwd now).1.scheduled_posts =
      db.scheduled_posts ∧
    (start db u).scheduled_posts = db.scheduled_posts := by
  refine ⟨rfl, (send_post_frame tr db s userId now).2.1, ?_,
    (handle_forwarded_db_frame verify db s userId fwd now).1, rfl⟩
  cases d with
  | backToMain => rfl
  | selectChannel cid => rfl
  | postPreview => rfl
  | sendPost => exact (send_post_frame tr db s userId now).2.1
  | schedulePost => rfl
  | lang code => rfl
  | other raw => rfl

/-- C5 counterexample: channel 5 was first claimed by user 1 (owner 1, admin
set containing 1, bot token bound).  A second claim by user 2, who passes the
administrator verification, rebuilds the record from scratch: the stored
channel now has owner_id 2, admin list containing only 2, and its bot_token
reset to None — the first owner is not preserved and the claimant is not
added to the existing admin set. -/
theorem C5_counterexample :
    (handle_forwarded_message verifyAdmin dbOwned sAdding 2 (some fwd5)
        50).1.get_channel 5 =
      some { id := 5, name := "C", username := none, ctype := "channel",
             admins := [2], owner_id := 2, added_date := 50,
             bot_token := none, timezone := "UTC" } := by
  rfl

/-- C5 (amended): every successful claim — first or subsequent, same user or
different — overwrites the stored channel record with a freshly built one in
which the claimant is the sole owner and the sole admin and the bound
credential is reset to None; nothing of a previous record survives. -/
theorem C5_claim_overwrites (verify : Int → Int → VerifyRes) (db : Database)
    (s : UserData) (userId : Int) (chat : FwdChat) (now : Nat) (st : String)
    (h1 : s.adding_channel = true)
    (h2 : chat.ctype = "channel" ∨ chat.ctype = "group")
    (h3 : verify chat.id userId = VerifyRes.status st)
    (h4 : st = "creator" ∨ st = "administrator") :
    (handle_forwarded_message verify db s userId (some chat)
        now).1.get_channel chat.id =
      some { id := chat.id, name := chat.title, username := chat.username,
             ctype := chat.ctype, admins := [userId], owner_id := userId,
             added_date := now, bot_token := none, timezone := "UTC" } := by
  unfold handle_forwarded_message
  simp only [h1, Bool.not_true]
  rw [if_neg (by simp)]
  rw [if_pos h2, h3]
  simp only []
  rw [if_pos h4]
  simp [Database.save_channel, Database.get_channel, dictGet_dictPut_self]

/-- C5 witness: the amended theorem applied to the concrete second claim of
the counterexample. -/
theorem C5_claim_overwrites_witness :
    sAdding.adding_channel = true ∧
    (fwd5.ctype = "channel" ∨ fwd5.ctype = "group") ∧
    verifyAdmin fwd5.id 2 = VerifyRes.status "administrator" ∧
    ("administrator" = "creator" ∨ "administrator" = "administrator") ∧
    (handle_forwarded_message verifyAdmin dbOwned sAdding 2 (some fwd5)
        50).1.get_channel fwd5.id =
      some { id := fwd5.id, name := fwd5.title, username := fwd5.username,
             ctype := fwd5.ctype, admins := [2], owner_id := 2,
             added_date := 50, bot_token := none, timezone := "UTC" } :=
  ⟨rfl, Or.inl rfl, rfl, Or.inr rfl,
   C5_claim_overwrites verifyAdmin dbOwned sAdding 2 fwd5 50 "administrator"
     rfl (Or.inl rfl) rfl (Or.inr rfl)⟩

/-- C6 counterexample: for a post on a channel whose bot_token is None,
send_post_to_channel answers with the "No bot connected to this channel.
Please add a bot first." alert and makes zero transport calls — but it does
not set any Post to a failed state with reason "no credential bound": the
database is returned completely unchanged and its posts table stays empty,
so no failed Post record exists anywhere. -/
theorem C6_counterexample :
    send_post_to_channel trAllOk dbNoTok sNoTok 7 10 =
      ⟨dbNoTok, sNoTok, SendNotice.noBot, []⟩ ∧
    (send_post_to_channel trAllOk dbNoTok sNoTok 7 10).db.posts = [] := by
  refine ⟨rfl, rfl⟩

/-- C6 (amended): when the selected channel exists, the draft is nonempty and
the channel's bot_token is not truthy, send_post_to_channel returns with the
no-bot alert, zero transport calls, and the database and session untouched —
in particular it creates or updates no Post record at all. -/
theorem C6_no_token_alert_only (tr : Nat → TrResult) (db : Database)
    (s : UserData) (userId : Int) (now : Nat) (cid : Int) (ch : Channel)
    (h1 : s.selected_channel = some cid) (h2 : db.get_channel cid = some ch)
    (h3 : (s.post_messages.getD []).isEmpty = false)
    (h4 : truthy ch.bot_token = false) :
    send_post_to_channel tr db s userId now =
      ⟨db, s, SendNotice.noBot, []⟩ := by
  simp [send_post_to_channel, h1, h2, h3, h4]

/-- C6 witness: the amended theorem applied to the concrete tokenless
channel. -/
theorem C6_no_token_witness :
    sNoTok.selected_channel = some 600 ∧
    dbNoTok.get_channel 600 = some chanNoTok ∧
    (sNoTok.post_messages.getD []).isEmpty = false ∧
    truthy chanNoTok.bot_token = false ∧
    send_post_to_channel trFailSecond dbNoTok sNoTok 7 10 =
      ⟨dbNoTok, sNoTok, SendNotice.noBot, []⟩ :=
  ⟨rfl, rfl, rfl, rfl,
   C6_no_token_alert_only trFailSecond dbNoTok sNoTok 7 10 600 chanNoTok
     rfl rfl rfl rfl⟩

/-- show_post_preview performs no session write in either branch. -/
theorem show_post_preview_fst (db : Database) (s : UserData) :
    (show_post_preview db s).1 = s := by
  by_cases hc : (s.post_messages.getD []).isEmpty = true
  · simp [show_post_preview, hc]
  · simp [show_post_preview, hc]

/-- C7 counterexample: a composing session holding zero appended blocks gets
the "No content added yet" prompt from show_post_preview — an output carrying
no block count at all — rather than a preview reporting the count 0, so the
claim's "reports the block count as exactly N" fails at N = 0. -/
theorem C7_counterexample :
    show_post_preview dbTok sFresh = (sFresh, PreviewOut.noContent) := by
  rfl

/-- C7 (amended): for every session obtained by appending N bigger-than-zero
content messages to a fresh composing session, the preview reports the block
count as exactly N, renders the first three (or fewer) appended blocks in
arrival order, reports the remainder beyond three as a count, and leaves the
session — its block list included — unmutated; with zero blocks the preview
is the no-content prompt instead. -/
theorem C7_preview_after_appends (db : Database) (s : UserData) (cid : Int)
    (ch : Channel) (msgs : List (IncomingMessage × Nat))
    (h1 : s.creating_post = true) (h2 : s.selected_channel = some cid)
    (h3 : db.get_channel cid = some ch) (h4 : s.post_messages = none)
    (h5 : msgs ≠ []) :
    show_post_preview db (composeAll db s msgs) =
      (composeAll db s msgs,
       PreviewOut.preview (some ch.name) msgs.length
         ((withIdx 1 ((msgs.map (fun p => buildMessageData p.1 p.2)).take 3)).filterMap
            (fun p => renderLine p.1 p.2))
         (if msgs.length > 3 then some (msgs.length - 3) else none)) := by
  have hca := composeAll_spec db cid ch msgs s h1 h2 h3
  have hne : msgs.isEmpty = false := by
    cases msgs with
    | nil => exact absurd rfl h5
    | cons a b => rfl
  have hmapne : (msgs.map (fun p => buildMessageData p.1 p.2)).isEmpty = false := by
    cases msgs with
    | nil => exact absurd rfl h5
    | cons a b => rfl
  rw [hca, if_neg (by simp [hne])]
  simp [show_post_preview, h2, h3, h4, hmapne, List.length_map]

/-- C7 witness: the amended theorem applied to four appended text messages
(count 4, three rendered lines, remainder 1). -/
theorem C7_preview_witness :
    sFresh.creating_post = true ∧ sFresh.selected_channel = some 500 ∧
    dbTok.get_channel 500 = some chanTok ∧ sFresh.post_messages = none ∧
    msgs4 ≠ [] ∧
    show_post_preview dbTok (composeAll dbTok sFresh msgs4) =
      (composeAll dbTok sFresh msgs4,
       PreviewOut.preview (some chanTok.name) msgs4.length
         ((withIdx 1 ((msgs4.map (fun p => buildMessageData p.1 p.2)).take 3)).filterMap
            (fun p => renderLine p.1 p.2))
         (if msgs4.length > 3 then some (msgs4.length - 3) else none)) :=
  ⟨rfl, rfl, rfl, rfl, by decide,
   C7_preview_after_appends dbTok sFresh 500 chanTok msgs4 rfl rfl rfl rfl
     (by decide)⟩

/-- C8: an incoming photo message (no text, not forwarded, not a command)
sent while the user's session is composing is routed to no handler at all —
setup_handlers registers handle_text_message only under Filters.text and-not
Filters.command, and Filters.text requires message.text — so no content block
is appended for it; yet handle_text_message itself, were it ever invoked on
that photo message, would append exactly one block capturing the photo and
its caption, and the bot's own prompt invites photos, videos and documents.
The media branches of the handler are dead code behind the dispatch. -/
theorem C8_media_never_routed :
    dispatch photoOnlyMsg = Routed.noHandler ∧
    (handle_text_message dbTok (sessionWith []) photoOnlyMsg 3).1.post_messages =
      some [buildMessageData photoOnlyMsg 3] := by
  refine ⟨rfl, rfl⟩

/-- C9: with the adding_channel flag unset, handle_forwarded_message returns
with the database — its channel registry included — and the session
completely untouched; and no operation of the program ever sets the flag:
starting from a session with the flag unset, add_channel (which only replies
with instructions), handle_text_message, every handle_callback branch,
schedule_post, send_post_to_channel, show_post_preview and the reply manager
all leave it unset. -/
theorem C9_adding_channel_frame (verify : Int → Int → VerifyRes)
    (tr : Nat → TrResult) (db : Database) (s : UserData) (userId : Int)
    (fwd : Option FwdChat) (now : Nat) (m : IncomingMessage)
    (d : CallbackData) (cid : Int) (mid : Nat)
    (h : s.adding_channel = false) :
    handle_forwarded_message verify db s userId fwd now =
      (db, s, FwdNotice.ignored) ∧
    add_channel s = s ∧
    (handle_text_message db s m now).1.adding_channel = false ∧
    (handle_callback tr db s userId d now).2.adding_channel = false ∧
    (schedule_post s).adding_channel = false ∧
    (send_post_to_channel tr db s userId now).session.adding_channel = false ∧
    (show_post_preview db s).1.adding_channel = false ∧
    (handleReply s cid mid userId).adding_channel = false := by
  refine ⟨?_, rfl, ?_, ?_, h, ?_, ?_, h⟩
  · simp [handle_forwarded_message, h]
  · rw [(handle_text_message_frame db s m now).1]; exact h
  · cases d with
    | backToMain => exact h
    | selectChannel c => exact h
    | postPreview =>
      show (show_post_preview db s).1.adding_channel = false
      rw [show_post_preview_fst]; exact h
    | sendPost =>
      show (send_post_to_channel tr db s userId now).session.adding_channel = false
      rw [(send_post_frame tr db s userId now).1]; exact h
    | schedulePost => exact h
    | lang code => exact h
    | other raw => exact h
  · rw [(send_post_frame tr db s userId now).1]; exact h
  · rw [show_post_preview_fst]; exact h

/-- C9 witness: the frame theorem applied at a concrete session with the
flag unset. -/
theorem C9_frame_witness :
    sFresh.adding_channel = false ∧
    (handle_forwarded_message verifyAdmin dbTok sFresh 7 (some fwd5) 5 =
       (dbTok, sFresh, FwdNotice.ignored) ∧
     add_channel sFresh = sFresh ∧
     (handle_text_message dbTok sFresh (textMsg "x") 6).1.adding_channel = false ∧
     (handle_callback trAllOk dbTok sFresh 7 CallbackData.schedulePost
        6).2.adding_channel = false ∧
     (schedule_post sFresh).adding_channel = false ∧
     (send_post_to_channel trAllOk dbTok sFresh 7 6).session.adding_channel = false ∧
     (show_post_preview dbTok sFresh).1.adding_channel = false ∧
     (handleReply sFresh 5 9 7).adding_channel = false) :=
  ⟨rfl, C9_adding_channel_frame verifyAdmin trAllOk dbTok sFresh 7 (some fwd5)
     5 (textMsg "x") CallbackData.schedulePost 5 9 rfl⟩

/-- C10: when a transport send raises partway through delivery (the send
loop ends in err), send_post_to_channel returns the database — posts table
included — and the session (post_messages, selected_channel, creating_post)
exactly as they were and leaves the user with the error alert; and a post
record reaches the store only in the complementary case, after the loop has
processed every block, as one write carrying the full sent-id list. -/
theorem C10_send_failure_atomicity (tr : Nat → TrResult) (db : Database)
    (s : UserData) (userId : Int) (now : Nat) (cid : Int) (ch : Channel)
    (h1 : s.selected_channel = some cid) (h2 : db.get_channel cid = some ch)
    (h3 : (s.post_messages.getD []).isEmpty = false)
    (h4 : truthy ch.bot_token = true) :
    ((sendLoop tr cid (s.post_messages.getD []) 0).2 = LoopRes.err →
      send_post_to_channel tr db s userId now =
        ⟨db, s, SendNotice.sendError,
         (sendLoop tr cid (s.post_messages.getD []) 0).1⟩) ∧
    (∀ ids, (sendLoop tr cid (s.post_messages.getD []) 0).2 = LoopRes.ok ids →
      (send_post_to_channel tr db s userId now).db.posts =
        dictPut (postIdStr cid now)
          { id := postIdStr cid now, channel_id := cid, user_id := userId,
            messages := s.post_messages.getD [], sent_messages := ids,
            sent_date := now, ptype := "instant" } db.posts) := by
  cases hloop : sendLoop tr cid (s.post_messages.getD []) 0 with
  | mk calls res =>
    constructor
    · intro herr
      simp at herr
      subst herr
      simp [send_post_to_channel, h1, h2, h3, h4, hloop]
    · intro ids hok
      simp at hok
      subst hok
      simp [send_post_to_channel, h1, h2, h3, h4, hloop]

/-- C10 witness: the atomicity theorem applied to the concrete run where
block B's send raises after block A was delivered. -/
theorem C10_atomicity_witness :
    sAB.selected_channel = some 500 ∧
    dbTok.get_channel 500 = some chanTok ∧
    (sAB.post_messages.getD []).isEmpty = false ∧
    truthy chanTok.bot_token = true ∧
    (sendLoop trFailSecond 500 (sAB.post_messages.getD []) 0).2 = LoopRes.err ∧
    send_post_to_channel trFailSecond dbTok sAB 7 1000 =
      ⟨dbTok, sAB, SendNotice.sendError,
       (sendLoop trFailSecond 500 (sAB.post_messages.getD []) 0).1⟩ :=
  ⟨rfl, rfl, rfl, rfl, rfl,
   (C10_send_failure_atomicity trFailSecond dbTok sAB 7 1000 500 chanTok
      rfl rfl rfl rfl).1 rfl⟩
